import Mathlib

/-!
Shallow embedding of the PyPowerSchool client (src/pypowerschool/powerschool.py
and src/pypowerschool/endpoints.py).

JSON values returned by the server are modelled by the inductive `Json`
(numbers are integers; the claims under study involve no floating point).
HTTP calls are modelled by passing each function the response(s) the server
would produce: `Option Json`, where `none` stands for a call that raises
(transport error or unparsable body).  Loops that the source writes with
`while` are written with explicit fuel; a result of `none` means the fuel ran
out, i.e. the source loop has not terminated within that many iterations.
-/

inductive Json where
  | null : Json
  | bool : Bool → Json
  | num : Int → Json
  | str : String → Json
  | arr : List Json → Json
  | obj : List (String × Json) → Json

/-- First-match lookup in a JSON object's key/value list; models Python
`d[key]` on a dict, where a missing key raises `KeyError` (here `none`). -/
def lookupKey : List (String × Json) → String → Option Json
  | [], _ => none
  | (k, v) :: rest, key => if k = key then some v else lookupKey rest key

/-- Models Python subscripting `j[key]`: a value on a dict, `none` when the
key is missing (`KeyError`) or `j` is not a dict (`TypeError`). -/
def Json.get : Json → String → Option Json
  | Json.obj kvs, key => lookupKey kvs key
  | _, _ => none

/-- Models Python `j[i]` for integer `i`: element of a list, `none` when out
of range (`IndexError`) or `j` is not a list (`TypeError`/`KeyError`). -/
def Json.idx : Json → Nat → Option Json
  | Json.arr l, i => l.get? i
  | _, _ => none

/-- Models lines 218-222 of powerschool.py: `isinstance(x, list)` keeps the
list as is, any other value is wrapped into a one-element list. -/
def listify : Json → List Json
  | Json.arr l => l
  | v => [v]

/-- Models `resource_endpoint[resource_endpoint.rfind('/') + 1:]`
(powerschool.py line 196): the characters after the last `'/'`; when there
is no `'/'`, `rfind` is `-1` and the slice is the whole string. -/
def afterLastSlash (s : String) : String :=
  String.mk ((s.data.reverse.takeWhile fun c => c ≠ '/').reverse)

/-- Models the body of `Client.resource_count` (powerschool.py lines
337-343) applied to the response of `GET resource_url/count`:
`data.json()["resource"]["count"]` is returned as found; a raising call
(`none`) or a missing key (`KeyError`) is caught and yields `0`. -/
def resource_count_model (resp : Option Json) : Json :=
  match resp with
  | none => Json.num 0
  | some j =>
    match (j.get "resource").bind fun r => r.get "count" with
    | some v => v
    | none => Json.num 0

/-- `Client.resource_count` including the URL it requests (line 334):
`GET {resource_url}/count` against a URL-indexed server. -/
def resource_count_from (server : String → Option Json) (resource_url : String) : Json :=
  resource_count_model (server (resource_url ++ "/count"))

/-- One page fetch of `Client.fetch_items` (powerschool.py lines 214-222):
the page response unwrapped by `response.json()[key_1][key_2]` and
normalised by `listify`; `none` when the GET raises or a key is missing,
which line 225 turns into returning the empty list. -/
def fetchPageItems (server : Nat → Option Json) (key1 key2 : String) (page : Nat) :
    Option (List Json) :=
  (server page).bind fun j =>
    ((j.get key1).bind fun inner => inner.get key2).map listify

/-- The shared shape of the two pagination loops (powerschool.py lines
211-226 and 301-317): `while len(data) < count`, fetch the current page,
on any exception return `[]` discarding accumulated data, otherwise extend
`data` and increment the page number.  The result also carries the list of
page numbers requested, in order.  Fuel exhaustion is `none`: the source
loop has no iteration bound. -/
def pagedLoop (fetchPage : Nat → Option (List Json)) (fuel : Nat) (count : Int)
    (data : List Json) (page : Nat) : Option (List Nat × List Json) :=
  match fuel with
  | 0 => none
  | Nat.succ f =>
    if (data.length : Int) < count then
      match fetchPage page with
      | none => some ([page], [])
      | some items =>
        match pagedLoop fetchPage f count (data ++ items) (page + 1) with
        | none => none
        | some (tr, res) => some (page :: tr, res)
    else
      some ([], data)

/-- The pagination loop of `Client.fetch_items` (lines 208-227). -/
def fetchItemsLoop (server : Nat → Option Json) (key1 key2 : String) (fuel : Nat)
    (count : Int) (data : List Json) (page : Nat) : Option (List Nat × List Json) :=
  pagedLoop (fetchPageItems server key1 key2) fuel count data page

/-- Data flow of `Client.fetch_items` (powerschool.py lines 196-227):
derives the resource name from the endpoint, keys `name + "s"` / `name`,
obtains the count from the count response via `resource_count_model`, then
runs the pagination loop from page 1 with empty data.  A non-numeric count
would make the source's `len(data) < resource_count` comparison raise
uncaught, modelled as `none`. -/
def fetch_items_model (countResp : Option Json) (server : Nat → Option Json)
    (endpoint : String) (fuel : Nat) : Option (List Nat × List Json) :=
  match resource_count_model countResp with
  | Json.num n =>
    fetchItemsLoop server (afterLastSlash endpoint ++ "s") (afterLastSlash endpoint)
      fuel n [] 1
  | _ => none

/-- Models Python `data.extend(x)` in `Client.powerquery` (line 305):
a list extends element-wise; a dict extends with its keys (as strings);
a string extends with its one-character substrings; any non-iterable value
raises `TypeError`, caught by the generic handler (`none`). -/
def extendItems : Json → Option (List Json)
  | Json.arr l => some l
  | Json.obj kvs => some (kvs.map fun kv => Json.str kv.fst)
  | Json.str s => some (s.data.map fun c => Json.str (String.mk [c]))
  | _ => none

/-- One page fetch of `Client.powerquery` (lines 303-316): POST the body,
take `response.json()['record']` and extend with it; a raising POST, a
missing `record` key (`KeyError`, lines 306-313) or a non-iterable value
all make the loop return `[]`. -/
def fetchPagePQ (server : Nat → Option Json) (page : Nat) : Option (List Json) :=
  (server page).bind fun j => (j.get "record").bind extendItems

/-- The pagination loop of `Client.powerquery` (lines 301-317). -/
def powerqueryLoop (server : Nat → Option Json) (fuel : Nat) (count : Int)
    (data : List Json) (page : Nat) : Option (List Nat × List Json) :=
  pagedLoop (fetchPagePQ server) fuel count data page

/-- Models `count_response.json().get('count', 0)` (line 300): `0` when the
key is absent, the value when it is an integer; a non-dict response or a
non-integer count would make the loop condition raise uncaught (`none`). -/
def powerqueryCount : Json → Option Int
  | Json.obj kvs =>
    match lookupKey kvs "count" with
    | some (Json.num n) => some n
    | none => some 0
    | some _ => none
  | _ => none

/-- Data flow of `Client.powerquery` (lines 295-318): the count POST (line
298) is outside any `try`, so a raising count call propagates (`none`);
otherwise the loop runs from page 1 with empty data. -/
def powerquery_model (countResp : Option Json) (server : Nat → Option Json)
    (fuel : Nat) : Option (List Nat × List Json) :=
  match countResp with
  | none => none
  | some cj =>
    match powerqueryCount cj with
    | none => none
    | some n => powerqueryLoop server fuel n [] 1

/-- The token endpoint's successful response: `access_token` and
`expires_in` (seconds), powerschool.py lines 112-119. -/
structure TokenResponse where
  access_token : String
  expires_in : Nat

/-- The cached `access_token_response`: the token string together with the
computed `expiration_datetime` (line 117: issuance time + `expires_in`).
Time is modelled by natural-number instants. -/
structure TokenState where
  token : String
  expiration : Nat

/-- Models `Client._access_token` (powerschool.py lines 92-121): return the
cached token while `expiration_datetime > now`, otherwise POST the token
endpoint (the fetched response is `srv`), cache it with expiration
`now + expires_in`, and return the new header value.  The result is
(Authorization header value, cached state, number of token-fetch requests
made: 0 or 1). -/
def accessToken (srv : TokenResponse) (now : Nat) (st : Option TokenState) :
    String × TokenState × Nat :=
  match st with
  | some ts =>
    if now < ts.expiration then ("Bearer " ++ ts.token, ts, 0)
    else ("Bearer " ++ srv.access_token, ⟨srv.access_token, now + srv.expires_in⟩, 1)
  | none => ("Bearer " ++ srv.access_token, ⟨srv.access_token, now + srv.expires_in⟩, 1)

/-- Models `Client._access_token_expired` (powerschool.py lines 123-139):
`false` exactly when a cached token exists and `expiration_datetime > now`;
`true` when it has expired or no token was ever obtained. -/
def accessTokenExpired (now : Nat) (st : Option TokenState) : Bool :=
  match st with
  | some ts => if now < ts.expiration then false else true
  | none => true

/-- The client's mutable authentication state: the cached
`access_token_response` and the stored `headers["Authorization"]` value. -/
structure ClientState where
  token : Option TokenState
  auth : String

/-- The pre-request pattern `if self._access_token_expired():
self.headers["Authorization"] = self._access_token()` shared by
`fetch_item` (lines 168-169), `resource_count` (335-336), `post_data`
(254-255) and `powerquery` (291-292).  Result: (Authorization header used
for the request, client state afterwards, token fetches made). -/
def requestPre (srv : TokenResponse) (now : Nat) (cs : ClientState) :
    String × ClientState × Nat :=
  if accessTokenExpired now cs.token then
    let r := accessToken srv now cs.token
    (r.1, ⟨some r.2.1, r.1⟩, r.2.2)
  else
    (cs.auth, cs, 0)

/-- Token handling of `Client.fetch_item`, lines 168-169. -/
def fetchItemPre : TokenResponse → Nat → ClientState → String × ClientState × Nat :=
  requestPre

/-- Token handling of `Client.resource_count`, lines 335-336. -/
def resourceCountPre : TokenResponse → Nat → ClientState → String × ClientState × Nat :=
  requestPre

/-- Token handling of `Client.post_data`, lines 254-255. -/
def postDataPre : TokenResponse → Nat → ClientState → String × ClientState × Nat :=
  requestPre

/-- Token handling of `Client.powerquery`, lines 291-292. -/
def powerqueryPre : TokenResponse → Nat → ClientState → String × ClientState × Nat :=
  requestPre

/-- Token handling of `Client.fetch_metadata` (powerschool.py lines
229-238): the method performs no expiry check and no refresh; it issues its
GET with the stored `self.headers` as they are. -/
def fetchMetadataPre (cs : ClientState) : String × ClientState × Nat :=
  (cs.auth, cs, 0)

/-- Models `response['insert_count'] == 1` (powerschool.py line 262) with
Python equality semantics: the integer 1 matches, the boolean `True`
matches (`True == 1` in Python); a missing key raises (caught at line 266,
yielding `None`, the same outcome as `false` here). -/
def insertCountOne (j : Json) : Bool :=
  match j.get "insert_count" with
  | some (Json.num n) => n == 1
  | some (Json.bool b) => b
  | _ => false

/-- Models `response['result'][0]` (line 262). -/
def firstResult (j : Json) : Option Json :=
  (j.get "result").bind fun r => r.idx 0

/-- Models `response['result'][0]['status'] == 'SUCCESS'` (line 262);
any raising lookup is caught at line 266, yielding `None`, the same
outcome as `false` here. -/
def firstResultSuccess (j : Json) : Bool :=
  match (firstResult j).bind fun r0 => r0.get "status" with
  | some (Json.str s) => s == "SUCCESS"
  | _ => false

/-- Models `response['result'][0]['success_message']['id']` (line 263);
`none` when a key is missing, which raises and is caught, yielding `None`. -/
def successMessageId (j : Json) : Option Json :=
  (firstResult j).bind fun r0 =>
    (r0.get "success_message").bind fun sm => sm.get "id"

/-- Models `Client.post_data` (powerschool.py lines 258-268) applied to the
POST response: `none` when the POST itself raises; otherwise the new ID when
`insert_count == 1` and the first result's status is `SUCCESS`, and `None`
in every other case — every exception inside the `try` is caught and turned
into `None` (line 268), so no error propagates. -/
def post_data_model (resp : Option Json) : Option Json :=
  match resp with
  | none => none
  | some j =>
    if insertCountOne j && firstResultSuccess j then successMessageId j else none

/-- An httpx `Response` object; `.json()` gives the parsed body. -/
structure HttpResponse where
  body : Json

/-- Models `Response.json()`. -/
def HttpResponse.jsonOf (r : HttpResponse) : Json :=
  r.body

/-- Models the return of `Client.fetch_item` (powerschool.py line 171):
`return await async_client.get(...)` returns the httpx response object
itself, unparsed.  URL/parameter building and the token check (lines
160-169) are modelled by `fetchItemPre`; here only the returned value. -/
def fetch_item_model (resp : HttpResponse) : HttpResponse :=
  resp

/-- Models `CoreResourcesMixin.course_for_dcid` (endpoints.py lines 24-36):
the caller itself applies `.json()["course"]` to what `fetch_item`
returned. -/
def course_for_dcid_model (resp : HttpResponse) : Option Json :=
  (fetch_item_model resp).jsonOf.get "course"

/-- A `Client` object's `__init__`-set fields (powerschool.py lines 75-83),
plus an allocation identity `oid` standing for the Python object identity;
`client_id`/`client_secret` are stored UTF-8 encoded in the source, an
injective encoding modelled by keeping the string. -/
structure ClientObj where
  oid : Nat
  base_url : String
  client_id : String
  client_secret : String
  auth : String

/-- Process-wide state of the `Client` class: the `cls.instance` attribute
set by `__new__` (powerschool.py lines 51-57) and a fresh-identity
counter. -/
structure ProcState where
  inst : Option ClientObj
  nextOid : Nat

/-- Models `Client.__new__` (lines 51-57): allocate only when
`cls.instance` is absent, otherwise return the existing instance. -/
def clientNew (p : ProcState) : ClientObj × ProcState :=
  match p.inst with
  | some o => (o, p)
  | none =>
    let o : ClientObj := ⟨p.nextOid, "", "", "", ""⟩
    (o, ⟨some o, p.nextOid + 1⟩)

/-- Models `Client.__init__` (lines 59-83) on the object `__new__`
returned: overwrite `base_url`, `client_id`, `client_secret` and the
`Authorization` header (`tok` is the `_access_token()` result); the object
identity is untouched. -/
def clientInit (o : ClientObj) (url cid sec tok : String) : ClientObj :=
  { o with base_url := url, client_id := cid, client_secret := sec, auth := tok }

/-- A full Python construction `Client(url, client_id, client_secret)`:
`__new__` then `__init__` run on the (possibly shared) instance; the
mutated object is what `cls.instance` now refers to. -/
def clientConstruct (p : ProcState) (url cid sec tok : String) :
    ClientObj × ProcState :=
  let r := clientNew p
  let o2 := clientInit r.1 url cid sec tok
  (o2, ⟨some o2, r.2.nextOid⟩)

/-- C10: every construction `Client(url, client_id, client_secret)` returns
the same process-wide instance (same object identity), but `__init__` runs
again on that shared object, so a second construction silently replaces the
base URL, client ID, client secret and Authorization header of the instance
every existing reference shares, and `cls.instance` still refers to it. -/
theorem singleton_reinit_overwrites (p0 : ProcState) (u1 c1 s1 t1 u2 c2 s2 t2 : String) :
    (clientConstruct (clientConstruct p0 u1 c1 s1 t1).2 u2 c2 s2 t2).1.oid
      = (clientConstruct p0 u1 c1 s1 t1).1.oid ∧
    (clientConstruct (clientConstruct p0 u1 c1 s1 t1).2 u2 c2 s2 t2).1.base_url = u2 ∧
    (clientConstruct (clientConstruct p0 u1 c1 s1 t1).2 u2 c2 s2 t2).1.client_id = c2 ∧
    (clientConstruct (clientConstruct p0 u1 c1 s1 t1).2 u2 c2 s2 t2).1.client_secret = s2 ∧
    (clientConstruct (clientConstruct p0 u1 c1 s1 t1).2 u2 c2 s2 t2).1.auth = t2 ∧
    (clientConstruct (clientConstruct p0 u1 c1 s1 t1).2 u2 c2 s2 t2).2.inst
      = some (clientConstruct (clientConstruct p0 u1 c1 s1 t1).2 u2 c2 s2 t2).1 := by
  obtain ⟨inst0, oid0⟩ := p0
  cases inst0 <;> simp [clientConstruct, clientNew, clientInit]

/-- C9: `fetch_item` returns the raw httpx response object, not its parsed
JSON body — the caller `course_for_dcid` must itself apply
`.json()["course"]` to the value `fetch_item` returned, contradicting
`fetch_item`'s own docstring and `-> Dict` annotation. -/
theorem fetch_item_returns_response :
    fetch_item_model ⟨Json.obj [("course", Json.obj [("id", Json.num 3)])]⟩
      = ⟨Json.obj [("course", Json.obj [("id", Json.num 3)])]⟩ ∧
    course_for_dcid_model ⟨Json.obj [("course", Json.obj [("id", Json.num 3)])]⟩
      = some (Json.obj [("id", Json.num 3)]) := by
  constructor
  · rfl
  · simp [course_for_dcid_model, fetch_item_model, HttpResponse.jsonOf, Json.get, lookupKey]

/-- C5: `post_data` returns the newly created ID from
`result[0].success_message.id` exactly when the response declares
`insert_count == 1` and the first result's status is `SUCCESS` (and that ID
is present); every other response shape, and a raising call (`none`
response), yields `None` — the model is a total function, so no exception
surfaces to the caller. -/
theorem post_data_discrimination (resp : Option Json) :
    (∀ v, post_data_model resp = some v ↔
      ∃ j, resp = some j ∧ insertCountOne j = true ∧ firstResultSuccess j = true ∧
        successMessageId j = some v) ∧
    post_data_model none = none := by
  refine ⟨fun v => ?_, rfl⟩
  cases resp with
  | none => simp [post_data_model]
  | some j =>
    by_cases h1 : insertCountOne j = true <;> by_cases h2 : firstResultSuccess j = true <;>
      simp [post_data_model, h1, h2]

/-- C5 witness: a concrete successful POST response yields its declared ID. -/
theorem post_data_discrimination_witness :
    post_data_model (some (Json.obj
      [("insert_count", Json.num 1),
       ("result", Json.arr [Json.obj
         [("status", Json.str "SUCCESS"),
          ("success_message", Json.obj [("id", Json.num 42)])]])]))
      = some (Json.num 42) :=
  ((post_data_discrimination _).1 (Json.num 42)).mpr
    ⟨_, rfl, by decide, by decide, rfl⟩

/-- C7: `resource_count` GETs `{resource_url}/count`; a raising call or a
response without the `resource.count` shape yields `0`, and a response
carrying an integer at `resource.count` yields that integer — the function
is total, so count-driven loops always receive a numeric result. -/
theorem resource_count_soft (server : String → Option Json) (url : String) :
    (server (url ++ "/count") = none → resource_count_from server url = Json.num 0) ∧
    (∀ j, server (url ++ "/count") = some j →
      ((j.get "resource").bind (fun r => r.get "count") = none →
        resource_count_from server url = Json.num 0) ∧
      (∀ n : Int, (j.get "resource").bind (fun r => r.get "count") = some (Json.num n) →
        resource_count_from server url = Json.num n)) := by
  refine ⟨fun h => ?_, fun j hj => ⟨fun h => ?_, fun n h => ?_⟩⟩ <;>
    simp [resource_count_from, resource_count_model, *]

/-- C7 witness: a raising count call yields `0`, and a well-shaped count
response yields its integer. -/
theorem resource_count_soft_witness :
    resource_count_from (fun _ => none) "u" = Json.num 0 ∧
    resource_count_from
      (fun _ => some (Json.obj [("resource", Json.obj [("count", Json.num 7)])])) "u"
      = Json.num 7 :=
  ⟨(resource_count_soft (fun _ => none) "u").1 rfl,
   ((resource_count_soft _ "u").2
     (Json.obj [("resource", Json.obj [("count", Json.num 7)])]) rfl).2 7 rfl⟩

/-- When `_access_token_expired` reports `true`, `_access_token` performs
exactly one token-fetch and caches the new token with expiration
`now + expires_in`. -/
theorem accessToken_of_expired (srv : TokenResponse) (now : Nat) (st : Option TokenState)
    (h : accessTokenExpired now st = true) :
    accessToken srv now st
      = ("Bearer " ++ srv.access_token, ⟨srv.access_token, now + srv.expires_in⟩, 1) := by
  cases st with
  | none => rfl
  | some ts =>
    simp only [accessTokenExpired] at h
    by_cases hlt : now < ts.expiration
    · rw [if_pos hlt] at h
      exact absurd h (by simp)
    · simp [accessToken, hlt]

/-- C3: the cached token is valid strictly while `now < expiration` — it is
expired exactly when no token was obtained yet or `expiration ≤ now` — and
consequently, starting with no token, a request at `t0` and a second one
within the TTL issue exactly one token fetch between them, while a third
request at or after expiry issues a second fetch. -/
theorem token_validity_and_reuse :
    (∀ (now : Nat) (st : Option TokenState),
      (accessTokenExpired now st = false ↔ ∃ ts, st = some ts ∧ now < ts.expiration)) ∧
    (∀ (srv : TokenResponse) (t0 t1 t2 : Nat) (a : String),
      t1 < t0 + srv.expires_in → t0 + srv.expires_in ≤ t2 →
      (requestPre srv t0 ⟨none, a⟩).2.2 +
        (requestPre srv t1 (requestPre srv t0 ⟨none, a⟩).2.1).2.2 = 1 ∧
      (requestPre srv t2
        (requestPre srv t1 (requestPre srv t0 ⟨none, a⟩).2.1).2.1).2.2 = 1) := by
  constructor
  · intro now st
    cases st with
    | none => simp [accessTokenExpired]
    | some ts =>
      simp only [accessTokenExpired]
      split <;> simp_all
  · intro srv t0 t1 t2 a h1 h2
    have e0 : requestPre srv t0 ⟨none, a⟩
        = ("Bearer " ++ srv.access_token,
           ⟨some ⟨srv.access_token, t0 + srv.expires_in⟩, "Bearer " ++ srv.access_token⟩, 1) := by
      simp [requestPre, accessTokenExpired, accessToken]
    rw [e0]
    have hx1 : accessTokenExpired t1
        (some ⟨srv.access_token, t0 + srv.expires_in⟩) = false := by
      simp [accessTokenExpired, h1]
    have e1 : requestPre srv t1
        ⟨some ⟨srv.access_token, t0 + srv.expires_in⟩, "Bearer " ++ srv.access_token⟩
        = ("Bearer " ++ srv.access_token,
           ⟨some ⟨srv.access_token, t0 + srv.expires_in⟩, "Bearer " ++ srv.access_token⟩, 0) := by
      simp [requestPre, hx1]
    rw [e1]
    have hx2 : accessTokenExpired t2
        (some ⟨srv.access_token, t0 + srv.expires_in⟩) = true := by
      simp [accessTokenExpired]
      omega
    refine ⟨rfl, ?_⟩
    simp [requestPre, hx2, accessToken_of_expired srv t2 _ hx2]

/-- C3 witness: token fetched at time 0 with TTL 10 is reused at time 5 and
refetched at time 10. -/
theorem token_validity_and_reuse_witness :
    (requestPre ⟨"tok", 10⟩ 0 ⟨none, ""⟩).2.2 +
      (requestPre ⟨"tok", 10⟩ 5 (requestPre ⟨"tok", 10⟩ 0 ⟨none, ""⟩).2.1).2.2 = 1 ∧
    (requestPre ⟨"tok", 10⟩ 10
      (requestPre ⟨"tok", 10⟩ 5 (requestPre ⟨"tok", 10⟩ 0 ⟨none, ""⟩).2.1).2.1).2.2 = 1 :=
  token_validity_and_reuse.2 ⟨"tok", 10⟩ 0 5 10 "" (by decide) (by decide)

/-- C4 counterexample: with the cached token expired (now = 10, expiration
= 5), `fetch_metadata` performs no token fetch and issues its request with
the stale stored Authorization header — it does not consult the Token
Manager before its request, contrary to the claim that every request
operation does. -/
theorem fetch_metadata_no_token_check :
    accessTokenExpired 10 (some ⟨"old", 5⟩) = true ∧
    fetchMetadataPre ⟨some ⟨"old", 5⟩, "Bearer old"⟩
      = ("Bearer old", ⟨some ⟨"old", 5⟩, "Bearer old"⟩, 0) :=
  ⟨by decide, rfl⟩

/-- C4 amended: `fetch_item`, `resource_count`, `post_data` and
`powerquery` each run the identical pre-request check — when the token is
expired they perform one token fetch and install the fresh Authorization
header, which later requests before the new expiry reuse without a further
fetch — while `fetch_metadata` performs no check and reuses the stored
header as it is. -/
theorem precall_token_check (srv : TokenResponse) (now now2 : Nat) (cs : ClientState)
    (hexp : accessTokenExpired now cs.token = true)
    (hfresh : now2 < now + srv.expires_in) :
    (fetchItemPre srv now cs).2.2 = 1 ∧
    (fetchItemPre srv now cs).1 = "Bearer " ++ srv.access_token ∧
    (fetchItemPre srv now cs).2.1.auth = "Bearer " ++ srv.access_token ∧
    resourceCountPre srv now cs = fetchItemPre srv now cs ∧
    postDataPre srv now cs = fetchItemPre srv now cs ∧
    powerqueryPre srv now cs = fetchItemPre srv now cs ∧
    (fetchMetadataPre cs).2.2 = 0 ∧
    (fetchMetadataPre cs).1 = cs.auth ∧
    (fetchItemPre srv now2 (fetchItemPre srv now cs).2.1).2.2 = 0 ∧
    (fetchItemPre srv now2 (fetchItemPre srv now cs).2.1).1
      = "Bearer " ++ srv.access_token := by
  have e : fetchItemPre srv now cs
      = ("Bearer " ++ srv.access_token,
         ⟨some ⟨srv.access_token, now + srv.expires_in⟩, "Bearer " ++ srv.access_token⟩, 1) := by
    simp [fetchItemPre, requestPre, hexp, accessToken_of_expired srv now _ hexp]
  have hx : accessTokenExpired now2
      (some ⟨srv.access_token, now + srv.expires_in⟩) = false := by
    simp [accessTokenExpired, hfresh]
  refine ⟨?_, ?_, ?_, rfl, rfl, rfl, rfl, rfl, ?_, ?_⟩
  · rw [e]
  · rw [e]
  · rw [e]
  · rw [e]
    simp [fetchItemPre, requestPre, hx]
  · rw [e]
    simp [fetchItemPre, requestPre, hx]

/-- C4 amended witness: a concrete expired state (now = 10, expiration 5,
TTL 100, second call at 50). -/
theorem precall_token_check_witness :
    (fetchItemPre ⟨"new", 100⟩ 10 ⟨some ⟨"old", 5⟩, "Bearer old"⟩).2.2 = 1 ∧
    (fetchItemPre ⟨"new", 100⟩ 10 ⟨some ⟨"old", 5⟩, "Bearer old"⟩).1 = "Bearer " ++ "new" ∧
    (fetchItemPre ⟨"new", 100⟩ 10 ⟨some ⟨"old", 5⟩, "Bearer old"⟩).2.1.auth
      = "Bearer " ++ "new" ∧
    resourceCountPre ⟨"new", 100⟩ 10 ⟨some ⟨"old", 5⟩, "Bearer old"⟩
      = fetchItemPre ⟨"new", 100⟩ 10 ⟨some ⟨"old", 5⟩, "Bearer old"⟩ ∧
    postDataPre ⟨"new", 100⟩ 10 ⟨some ⟨"old", 5⟩, "Bearer old"⟩
      = fetchItemPre ⟨"new", 100⟩ 10 ⟨some ⟨"old", 5⟩, "Bearer old"⟩ ∧
    powerqueryPre ⟨"new", 100⟩ 10 ⟨some ⟨"old", 5⟩, "Bearer old"⟩
      = fetchItemPre ⟨"new", 100⟩ 10 ⟨some ⟨"old", 5⟩, "Bearer old"⟩ ∧
    (fetchMetadataPre ⟨some ⟨"old", 5⟩, "Bearer old"⟩).2.2 = 0 ∧
    (fetchMetadataPre ⟨some ⟨"old", 5⟩, "Bearer old"⟩).1 = "Bearer old" ∧
    (fetchItemPre ⟨"new", 100⟩ 50
      (fetchItemPre ⟨"new", 100⟩ 10 ⟨some ⟨"old", 5⟩, "Bearer old"⟩).2.1).2.2 = 0 ∧
    (fetchItemPre ⟨"new", 100⟩ 50
      (fetchItemPre ⟨"new", 100⟩ 10 ⟨some ⟨"old", 5⟩, "Bearer old"⟩).2.1).1
      = "Bearer " ++ "new" :=
  precall_token_check ⟨"new", 100⟩ 10 50 ⟨some ⟨"old", 5⟩, "Bearer old"⟩
    (by decide) (by decide)

/-- In any terminating run of the shared pagination loop, if one of the
requested pages failed, the returned result is the empty list: accumulated
partial results are discarded. -/
theorem pagedLoop_fail_empty (fetchPage : Nat → Option (List Json)) :
    ∀ (fuel : Nat) (count : Int) (data : List Json) (page : Nat) (tr : List Nat)
      (res : List Json),
      pagedLoop fetchPage fuel count data page = some (tr, res) →
      (∃ p, p ∈ tr ∧ fetchPage p = none) → res = [] := by
  intro fuel
  induction fuel with
  | zero =>
    intro count data page tr res h _
    exact absurd h (by simp [pagedLoop])
  | succ f ih =>
    intro count data page tr res h hex
    simp only [pagedLoop] at h
    split at h
    · split at h
      next hfp =>
        simp only [Option.some.injEq, Prod.mk.injEq] at h
        exact h.2.symm
      next items hfp =>
        split at h
        next hrec => exact Option.noConfusion h
        next tr2 res2 hrec =>
          simp only [Option.some.injEq, Prod.mk.injEq] at h
          obtain ⟨htr, hres⟩ := h
          subst htr
          subst hres
          obtain ⟨p, hp, hpf⟩ := hex
          rcases List.mem_cons.1 hp with hpeq | hpmem
          · subst hpeq
            rw [hpf] at hfp
            exact Option.noConfusion hfp
          · exact ih count (data ++ items) (page + 1) tr2 res2 hrec ⟨p, hpmem, hpf⟩
    · simp only [Option.some.injEq, Prod.mk.injEq] at h
      obtain ⟨htr, hres⟩ := h
      obtain ⟨p, hp, _⟩ := hex
      rw [← htr] at hp
      exact absurd hp (List.not_mem_nil p)

/-- C2: in every terminating run of the `fetch_items` or `powerquery`
pagination loop whose requested pages include a failing one (its fetch
raises or its response lacks the expected shape), the run's result is the
empty list — partial results accumulated from earlier pages are discarded,
and the loop returns this value rather than propagating an error. -/
theorem midpagination_failure_empty :
    (∀ (server : Nat → Option Json) (key1 key2 : String) (fuel : Nat) (count : Int)
       (data : List Json) (page : Nat) (tr : List Nat) (res : List Json),
       fetchItemsLoop server key1 key2 fuel count data page = some (tr, res) →
       (∃ p, p ∈ tr ∧ fetchPageItems server key1 key2 p = none) → res = []) ∧
    (∀ (server : Nat → Option Json) (fuel : Nat) (count : Int) (data : List Json)
       (page : Nat) (tr : List Nat) (res : List Json),
       powerqueryLoop server fuel count data page = some (tr, res) →
       (∃ p, p ∈ tr ∧ fetchPagePQ server p = none) → res = []) :=
  ⟨fun server key1 key2 => pagedLoop_fail_empty (fetchPageItems server key1 key2),
   fun server => pagedLoop_fail_empty (fetchPagePQ server)⟩

/-- A server whose page 1 succeeds with one record and whose page 2
raises. -/
def failingServer : Nat → Option Json :=
  fun p =>
    if p = 1 then
      some (Json.obj [("students", Json.obj [("student", Json.arr [Json.num 1])])])
    else none

/-- C2 witness: with declared count 3, page 1 yields one record and page 2
fails; the run requested pages 1 and 2 and returned the empty list, the
record from page 1 discarded. -/
theorem midpagination_failure_empty_witness :
    fetchItemsLoop failingServer "students" "student" 5 3 [] 1 = some ([1, 2], []) ∧
    ([] : List Json) = [] :=
  ⟨rfl,
   midpagination_failure_empty.1 failingServer "students" "student" 5 3 [] 1 [1, 2] []
     rfl ⟨2, by decide, rfl⟩⟩

/-- If every page fetch succeeds but yields zero records, the loop never
terminates while the accumulated length is below the count: there is no
maximum-iteration or stagnation guard, so no amount of fuel completes it. -/
theorem pagedLoop_stagnation (fetchPage : Nat → Option (List Json))
    (hfp : ∀ p, fetchPage p = some []) :
    ∀ (fuel : Nat) (count : Int) (data : List Json) (page : Nat),
      (data.length : Int) < count → pagedLoop fetchPage fuel count data page = none := by
  intro fuel
  induction fuel with
  | zero =>
    intro count data page h
    rfl
  | succ f ih =>
    intro count data page h
    simp only [pagedLoop, if_pos h, hfp, List.append_nil, ih count data (page + 1) h]

/-- C8: the stop condition of the `fetch_items` and `powerquery` loops is
`while accumulated < count` with no maximum-iteration or stagnation guard:
for the server behaviour in which every page fetch succeeds but yields zero
new records while the declared count is 1, neither loop terminates within
any number of iterations (`none` for every fuel). -/
theorem pagination_no_stagnation_guard :
    (∀ fuel : Nat,
      fetch_items_model
        (some (Json.obj [("resource", Json.obj [("count", Json.num 1)])]))
        (fun _ => some (Json.obj [("students", Json.obj [("student", Json.arr [])])]))
        "ws/v1/district/student" fuel = none) ∧
    (∀ fuel : Nat,
      powerquery_model (some (Json.obj [("count", Json.num 1)]))
        (fun _ => some (Json.obj [("record", Json.arr [])])) fuel = none) := by
  constructor
  · intro fuel
    exact pagedLoop_stagnation _ (fun p => rfl) fuel 1 [] 1 (by decide)
  · intro fuel
    exact pagedLoop_stagnation _ (fun p => rfl) fuel 1 [] 1 (by decide)

/-- A well-behaved simulated resource with page size `P`: page `p`
(1-based) responds with the `p`-th chunk of `recs`, of at most `P` records,
wrapped in the two-key envelope. -/
def chunkServer (key1 key2 : String) (recs : List Json) (P : Nat) : Nat → Option Json :=
  fun page =>
    some (Json.obj
      [(key1, Json.obj [(key2, Json.arr ((recs.drop ((page - 1) * P)).take P))])])

/-- Unwrapping a `chunkServer` page recovers exactly its chunk. -/
theorem fetchPageItems_chunkServer (key1 key2 : String) (recs : List Json) (P page : Nat) :
    fetchPageItems (chunkServer key1 key2 recs P) key1 key2 page
      = some ((recs.drop ((page - 1) * P)).take P) := by
  simp [fetchPageItems, chunkServer, Json.get, lookupKey, listify]

/-- Loop invariant for the simulated resource: after `k` pages the
accumulated data is the first `k * P` records; with `m` chunks left and
more than `m` fuel, the loop requests exactly pages `k+1, …, k+m` and ends
with all of `recs`. -/
theorem fetchItemsLoop_chunk (key1 key2 : String) (recs : List Json) (P : Nat)
    (hP : 0 < P) :
    ∀ (m k fuel : Nat), k + m = (recs.length + P - 1) / P → m < fuel →
      fetchItemsLoop (chunkServer key1 key2 recs P) key1 key2 fuel
        (recs.length : Int) (recs.take (k * P)) (k + 1)
        = some (List.range' (k + 1) m, recs) := by
  intro m
  induction m with
  | zero =>
    intro k fuel hk hfuel
    have hCP : recs.length ≤ k * P := by
      have h1 : (recs.length + P - 1) / P < k + 1 := by omega
      have h2 := (Nat.div_lt_iff_lt_mul hP).1 h1
      have h3 : (k + 1) * P = k * P + P := by ring
      omega
    obtain ⟨f, rfl⟩ : ∃ f, fuel = f + 1 := ⟨fuel - 1, by omega⟩
    have hlen : (recs.take (k * P)).length = recs.length := by
      simp only [List.length_take]
      omega
    simp only [fetchItemsLoop, pagedLoop]
    rw [if_neg]
    · rw [List.take_of_length_le hCP]
      simp
    · rw [hlen]
      omega
  | succ m ih =>
    intro k fuel hk hfuel
    have hkP : k * P < recs.length := by
      have h1 : k + 1 ≤ (recs.length + P - 1) / P := by omega
      have h2 := (Nat.le_div_iff_mul_le hP).1 h1
      have h3 : (k + 1) * P = k * P + P := by ring
      omega
    obtain ⟨f, rfl⟩ : ∃ f, fuel = f + 1 := ⟨fuel - 1, by omega⟩
    have hlen : (recs.take (k * P)).length = k * P := by
      simp only [List.length_take]
      omega
    have harith : (k + 1 - 1) * P = k * P := by rw [Nat.add_sub_cancel]
    have hdata : recs.take (k * P) ++ (recs.drop (k * P)).take P
        = recs.take ((k + 1) * P) := by
      rw [← List.take_add]
      congr 1
      ring
    have hih := ih (k + 1) f (by omega) (by omega)
    simp only [fetchItemsLoop] at hih
    have hcond : ((recs.take (k * P)).length : Int) < (recs.length : Int) := by
      rw [hlen]
      exact_mod_cast hkP
    simp only [fetchItemsLoop, pagedLoop, if_pos hcond, fetchPageItems_chunkServer,
      harith, hdata, hih]
    rw [List.range'_succ]

/-- C1: for a simulated resource with records `recs` (declared count
`N = recs.length`) and page size `P > 0`, `fetch_items` returns exactly the
`N` records, requesting pages `1, 2, …, ceil(N/P)` — `ceil(N/P)` pages in
strictly increasing order starting at 1, the page number incremented after
every successful fetch. -/
theorem pagination_completeness (endpoint : String) (recs : List Json) (P fuel : Nat)
    (hP : 0 < P) (hfuel : (recs.length + P - 1) / P < fuel) :
    fetch_items_model
      (some (Json.obj [("resource", Json.obj [("count", Json.num recs.length)])]))
      (chunkServer (afterLastSlash endpoint ++ "s") (afterLastSlash endpoint) recs P)
      endpoint fuel
      = some (List.range' 1 ((recs.length + P - 1) / P), recs) := by
  have h := fetchItemsLoop_chunk (afterLastSlash endpoint ++ "s")
    (afterLastSlash endpoint) recs P hP ((recs.length + P - 1) / P) 0 fuel
    (by omega) hfuel
  simpa [fetch_items_model, resource_count_model, Json.get, lookupKey] using h

/-- C1 witness: three records with page size 2 are returned in full,
requesting pages 1 and 2. -/
theorem pagination_completeness_witness :
    fetch_items_model
      (some (Json.obj [("resource", Json.obj [("count", Json.num 3)])]))
      (chunkServer "students" "student" [Json.num 10, Json.num 20, Json.num 30] 2)
      "ws/v1/school/student" 3
      = some ([1, 2], [Json.num 10, Json.num 20, Json.num 30]) := by
  have h := pagination_completeness "ws/v1/school/student"
    [Json.num 10, Json.num 20, Json.num 30] 2 3 (by decide) (by decide)
  simpa [afterLastSlash] using h

/-- `takeWhile` over a list whose first block satisfies `p` and whose next
element does not returns exactly that first block. -/
theorem takeWhile_append_stop {α : Type} (p : α → Bool) (l1 l2 : List α) (x : α)
    (h1 : ∀ a ∈ l1, p a = true) (hx : p x = false) :
    (l1 ++ x :: l2).takeWhile p = l1 := by
  induction l1 with
  | nil => simp [List.takeWhile_cons, hx]
  | cons a as ih =>
    rw [List.cons_append, List.takeWhile_cons, if_pos (h1 a (by simp))]
    rw [ih (fun b hb => h1 b (by simp [hb]))]

/-- C6: `fetch_items` derives the resource name as the substring after the
last `'/'` of the endpoint, and unwraps each page with outer key
`name ++ "s"` and inner key `name`; a page whose unwrapped inner value is a
single object rather than a list is normalised to a one-element list and
appended — the run succeeds with that one record, never failing to parse. -/
theorem envelope_unwrapping :
    (∀ s t : String, '/' ∉ t.data → afterLastSlash (s ++ "/" ++ t) = t) ∧
    (∀ (endpoint : String) (v : Json), (∀ l, v ≠ Json.arr l) → ∀ fuel, 2 ≤ fuel →
      fetch_items_model
        (some (Json.obj [("resource", Json.obj [("count", Json.num 1)])]))
        (fun _ => some (Json.obj
          [(afterLastSlash endpoint ++ "s", Json.obj [(afterLastSlash endpoint, v)])]))
        endpoint fuel = some ([1], [v])) := by
  constructor
  · intro s t ht
    have hdata : (s ++ "/" ++ t).data = s.data ++ '/' :: t.data := by
      have h1 : "/".data = ['/'] := rfl
      rw [String.data_append, String.data_append, h1, List.append_assoc,
        List.singleton_append]
    unfold afterLastSlash
    rw [hdata, List.reverse_append, List.reverse_cons, List.append_assoc,
      List.singleton_append]
    rw [takeWhile_append_stop _ (t.data.reverse) (s.data.reverse) '/'
      (fun a ha => by
        simp only [decide_eq_true_eq]
        intro heq
        exact ht (by rw [← heq]; exact List.mem_reverse.1 ha))
      (by simp)]
    rw [List.reverse_reverse]
  · intro endpoint v hv fuel hfuel
    obtain ⟨f, rfl⟩ : ∃ f, fuel = f + 2 := ⟨fuel - 2, by omega⟩
    have hl : listify v = [v] := by
      cases v with
      | arr l => exact absurd rfl (hv l)
      | null => rfl
      | bool b => rfl
      | num n => rfl
      | str s => rfl
      | obj kvs => rfl
    have hpage : fetchPageItems
        (fun _ => some (Json.obj
          [(afterLastSlash endpoint ++ "s", Json.obj [(afterLastSlash endpoint, v)])]))
        (afterLastSlash endpoint ++ "s") (afterLastSlash endpoint) 1
        = some (listify v) := by
      simp [fetchPageItems, Json.get, lookupKey]
    show fetchItemsLoop
        (fun _ => some (Json.obj
          [(afterLastSlash endpoint ++ "s", Json.obj [(afterLastSlash endpoint, v)])]))
        (afterLastSlash endpoint ++ "s") (afterLastSlash endpoint) (f + 2) 1 [] 1
        = some ([1], [v])
    have hstop : pagedLoop
        (fetchPageItems
          (fun _ => some (Json.obj
            [(afterLastSlash endpoint ++ "s", Json.obj [(afterLastSlash endpoint, v)])]))
          (afterLastSlash endpoint ++ "s") (afterLastSlash endpoint))
        (f + 1) 1 ([] ++ [v]) 2 = some ([], [v]) := by
      simp only [pagedLoop]
      rw [if_neg]
      · rfl
      · simp
    simp only [fetchItemsLoop, pagedLoop, hpage, hl, hstop]
    rw [if_pos (by decide : ((([] : List Json)).length : Int) < 1)]
    simp [hstop]

/-- C6 witness: endpoint `ws/v1/student` gives keys `students`/`student`,
and a page whose inner value is the single object `id: 7` yields that one
record. -/
theorem envelope_unwrapping_witness :
    ('/' ∉ "student".data ∧ afterLastSlash ("ws/v1" ++ "/" ++ "student") = "student") ∧
    fetch_items_model
      (some (Json.obj [("resource", Json.obj [("count", Json.num 1)])]))
      (fun _ => some (Json.obj
        [("students", Json.obj [("student", Json.obj [("id", Json.num 7)])])]))
      "ws/v1/student" 2 = some ([1], [Json.obj [("id", Json.num 7)]]) := by
  constructor
  · exact ⟨by decide, envelope_unwrapping.1 "ws/v1" "student" (by decide)⟩
  · have h := envelope_unwrapping.2 "ws/v1/student" (Json.obj [("id", Json.num 7)])
      (fun l hl => by cases hl) 2 (by decide)
    simpa [afterLastSlash] using h
